import Mathlib

/-!
Shallow embedding of src/bot.ts (class StarkWolfGame) from edenbd1/tx_bot.

The source is a TypeScript driver for a werewolf-style game contract on a
ledger.  The ledger collaborator (Account.execute, provider.waitForTransaction,
contract.get_game_state) is modelled as an oracle of per-attempt results; the
orchestrator's mutable state (the accounts Map and the account the Contract is
connected to) is modelled by an explicit state record, and every public method
becomes a function from state and oracle to a result record that also counts
how many ledger submission attempts (execute calls) were made.
-/

set_option autoImplicit false
set_option linter.unusedVariables false

namespace TxBot

universe u v

/-- A transaction receipt as returned by Account.execute: the source only ever
reads its transaction_hash field. -/
structure Tx where
  transaction_hash : String
deriving DecidableEq, Repr

/-- An entry of the accounts Map of StarkWolfGame: new Account(provider, address,
privateKey) stores the address and private key (the provider is shared and
carries no per-account data the source reads). -/
structure Account where
  address : String
  privateKey : String
deriving DecidableEq, Repr

/-- The source's result of contract.get_game_state (opaque to the bot; only its
existence is observed). -/
structure GameState where
  raw : Nat
deriving DecidableEq, Repr

/-- JS Map.get on an insertion-ordered association list keyed by address. -/
def mapGet (m : List Account) (addr : String) : Option Account :=
  match m with
  | [] => none
  | b :: rest => if b.address = addr then some b else mapGet rest addr

/-- JS Map.set: overwrite in place when the key is present (keeping its
position), otherwise append at the end, preserving insertion order. -/
def mapSet (m : List Account) (a : Account) : List Account :=
  match m with
  | [] => [a]
  | b :: rest => if b.address = a.address then a :: rest else b :: mapSet rest a

/-- The mutable state of a StarkWolfGame instance: the accounts Map (lines
24, 36) and the address of the account the Contract is currently connected to
(the effect of this.contract.connect).  The class has no other mutable field:
in particular it stores no phase and no per-game data. -/
structure StarkWolfGame where
  accounts : List Account
  connected : Option String
deriving DecidableEq, Repr

/-- addAccount (lines 45-47): this.accounts.set(address, new Account(provider,
address, privateKey)). -/
def addAccount (s : StarkWolfGame) (address privateKey : String) : StarkWolfGame :=
  { s with accounts := mapSet s.accounts ⟨address, privateKey⟩ }

/-- The ledger collaborator, as an oracle of per-attempt results: exec i is the
outcome of the i-th Account.execute call of the operation (1-indexed), wait i
the outcome of the waitForTransaction call that follows it, and queryState the
outcome of contract.get_game_state in startGame. -/
structure Ledger where
  exec : Nat → Except String Tx
  wait : Nat → Except String Unit
  queryState : Except String GameState

/-- One attempt body shared by the methods: execute the transaction, then await
its confirmation, and return the receipt only when both steps succeed. -/
def submitAndConfirm (L : Ledger) (i : Nat) : Except String Tx :=
  match L.exec i with
  | .error e => .error e
  | .ok tx =>
    match L.wait i with
    | .error e => .error e
    | .ok _ => .ok tx

/-- Observable trace of one retryTransaction call: its outcome (the error
channel is Option String because the final throw rethrows the lastError
variable, which is still undefined - modelled none - when the loop body never
ran), the number of invocations of the wrapped operation, and the list of
delays slept, in order. -/
structure RetryTrace (α : Type u) where
  result : Except (Option String) α
  attempts : Nat
  sleeps : List Nat
deriving Repr

/-- The loop of retryTransaction (lines 57-71), with fuel = the number of
attempts still allowed and attempt = the 1-indexed number of the current
attempt.  On failure the error is recorded as lastError; when further attempts
remain (attempt < maxAttempts, i.e. remaining fuel positive) the loop sleeps
delayMs and retries; when the fuel runs out, line 72 throws lastError. -/
def retryGo {α : Type u} (op : Nat → Except String α) (delayMs : Nat) :
    Nat → Nat → Option String → RetryTrace α
  | 0, _, lastError => ⟨.error lastError, 0, []⟩
  | fuel + 1, attempt, _ =>
    match op attempt with
    | .ok v => ⟨.ok v, 1, []⟩
    | .error e =>
      let r := retryGo op delayMs fuel (attempt + 1) (some e)
      if 0 < fuel then ⟨r.result, r.attempts + 1, delayMs :: r.sleeps⟩
      else ⟨r.result, r.attempts + 1, r.sleeps⟩

/-- retryTransaction (lines 52-73).  maxAttempts is an Int so that non-positive
arguments, for which the for loop body never executes, are representable; the
defaults of the source are maxAttempts = 5, delayMs = 2000.  No inspection of
the caught error happens anywhere in the loop: every error is stored and, while
attempts remain, retried. -/
def retryTransaction {α : Type u} (op : Nat → Except String α)
    (maxAttempts : Int := 5) (delayMs : Nat := 2000) : RetryTrace α :=
  retryGo op delayMs maxAttempts.toNat 1 none

/-- Result of one orchestrator method call: the state after the call, the value
returned or error thrown, and the number of Account.execute invocations. -/
structure OpResult where
  state : StarkWolfGame
  result : Except (Option String) Tx
  attempts : Nat
deriving Repr

/-- Lines 90-98 of startGame: the game-existence check.  get_game_state is
called inside a try block; when it returns a state the code throws
'Game already exists with this ID' from inside that same try block, so the
catch clause of lines 94-98 catches both that throw and a failure of the query
itself, logs, and lets execution continue.  Either way control falls through
to the submission. -/
def checkExistingGame (q : Except String GameState) : Except String Unit :=
  let tryBlock : Except String Unit :=
    match q with
    | .ok _ => .error "Game already exists with this ID"
    | .error e => .error e
  match tryBlock with
  | .error _ => .ok ()
  | .ok u => .ok u

/-- startGame (lines 82-124): resolve the starter account (throwing 'Starter
account not found' when missing), connect the contract to it, run the
game-existence check of lines 90-98, then drive the execute-and-wait closure
through retryTransaction with the default maxAttempts = 5, delayMs = 2000. -/
def startGame (s : StarkWolfGame) (L : Ledger) (gameId : Nat)
    (players : List String) (starterAddress : String) : OpResult :=
  match mapGet s.accounts starterAddress with
  | none => ⟨s, .error (some "Starter account not found"), 0⟩
  | some acct =>
    let s' : StarkWolfGame := { s with connected := some acct.address }
    match checkExistingGame L.queryState with
    | .error e => ⟨s', .error (some e), 0⟩
    | .ok _ =>
      let r := retryTransaction (submitAndConfirm L) 5 2000
      ⟨s', r.result, r.attempts⟩

/-- vote (lines 133-165): resolve the voter account (throwing 'Voter account
not found' when missing), connect, and drive execute-and-wait through
retryTransaction with the defaults. -/
def vote (s : StarkWolfGame) (L : Ledger) (gameId : Nat)
    (target : String) (voterAddress : String) : OpResult :=
  match mapGet s.accounts voterAddress with
  | none => ⟨s, .error (some "Voter account not found"), 0⟩
  | some acct =>
    let s' : StarkWolfGame := { s with connected := some acct.address }
    let r := retryTransaction (submitAndConfirm L) 5 2000
    ⟨s', r.result, r.attempts⟩

/-- Does the second character list start the first one. -/
def listStarts : List Char → List Char → Bool
  | _, [] => true
  | [], _ :: _ => false
  | a :: as, b :: bs => a = b && listStarts as bs

/-- Does the first character list contain the second as a contiguous run. -/
def listHasSub : List Char → List Char → Bool
  | [], needle => needle.isEmpty
  | a :: t, needle => listStarts (a :: t) needle || listHasSub t needle

/-- String.prototype.includes of JS: does hay contain needle as a substring. -/
def strIncludes (hay needle : String) : Bool :=
  listHasSub hay.data needle.data

/-- The dummy receipt returned when a 'Target protected' rejection is handled
(lines 207 and 218). -/
def protectedSentinel : Tx :=
  { transaction_hash := "protected_target_handled" }

/-- The closure passed to retryTransaction by werewolfAction (lines 185-212):
execute and await confirmation inside a try block whose catch returns the
dummy receipt when the error message contains 'Target protected' and rethrows
any other error. -/
def werewolfInner (L : Ledger) (i : Nat) : Except String Tx :=
  match submitAndConfirm L i with
  | .ok tx => .ok tx
  | .error e =>
    if strIncludes e "Target protected" then .ok protectedSentinel
    else .error e

/-- The outer catch of werewolfAction (lines 213-223): a second check of the
escaped error for 'Target protected', returning the dummy receipt when it
matches and rethrowing otherwise.  A thrown undefined lastError (error none)
is not an Error instance and is rethrown. -/
def werewolfOuterCatch (r : Except (Option String) Tx) : Except (Option String) Tx :=
  match r with
  | .ok tx => .ok tx
  | .error (some e) =>
    if strIncludes e "Target protected" then .ok protectedSentinel
    else .error (some e)
  | .error none => .error none

/-- werewolfAction (lines 174-224): resolve the killer account (throwing
'Killer account not found' when missing), connect, run the guarded closure
through retryTransaction with maxAttempts = 1 (line 212), and pass whatever
escapes through the outer 'Target protected' catch. -/
def werewolfAction (s : StarkWolfGame) (L : Ledger) (gameId : Nat)
    (target : String) (killerAddress : String) : OpResult :=
  match mapGet s.accounts killerAddress with
  | none => ⟨s, .error (some "Killer account not found"), 0⟩
  | some acct =>
    let s' : StarkWolfGame := { s with connected := some acct.address }
    let r := retryTransaction (werewolfInner L) 1 2000
    ⟨s', werewolfOuterCatch r.result, r.attempts⟩

/-- cupidAction (lines 234-265): same shape as vote with the cupid account. -/
def cupidAction (s : StarkWolfGame) (L : Ledger) (gameId : Nat)
    (lover1 lover2 : String) (cupidAddress : String) : OpResult :=
  match mapGet s.accounts cupidAddress with
  | none => ⟨s, .error (some "Cupid account not found"), 0⟩
  | some acct =>
    let s' : StarkWolfGame := { s with connected := some acct.address }
    let r := retryTransaction (submitAndConfirm L) 5 2000
    ⟨s', r.result, r.attempts⟩

/-- endVoting (lines 272-300): take the first value of the accounts Map
(insertion order), throwing 'No accounts available' when the Map is empty,
connect, and perform a single execute-and-wait directly - this method does not
go through retryTransaction. -/
def endVoting (s : StarkWolfGame) (L : Ledger) (gameId : Nat) : OpResult :=
  match s.accounts with
  | [] => ⟨s, .error (some "No accounts available"), 0⟩
  | a :: _ =>
    let s' : StarkWolfGame := { s with connected := some a.address }
    match submitAndConfirm L 1 with
    | .error e => ⟨s', .error (some e), 1⟩
    | .ok tx => ⟨s', .ok tx, 1⟩

/-- passNight (lines 308-343): use the account of the given caller when one is
supplied, else the first value of the accounts Map; throw 'No account available
for this operation' when that yields nothing; connect and drive execute-and-
wait through retryTransaction with the defaults. -/
def passNight (s : StarkWolfGame) (L : Ledger) (gameId : Nat)
    (callerAddress : Option String) : OpResult :=
  let account : Option Account :=
    match callerAddress with
    | some addr => mapGet s.accounts addr
    | none => s.accounts.head?
  match account with
  | none => ⟨s, .error (some "No account available for this operation"), 0⟩
  | some acct =>
    let s' : StarkWolfGame := { s with connected := some acct.address }
    let r := retryTransaction (submitAndConfirm L) 5 2000
    ⟨s', r.result, r.attempts⟩

/-- passDay (lines 351-386): identical control flow to passNight, submitting
the pass_day entrypoint instead of pass_night. -/
def passDay (s : StarkWolfGame) (L : Ledger) (gameId : Nat)
    (callerAddress : Option String) : OpResult :=
  let account : Option Account :=
    match callerAddress with
    | some addr => mapGet s.accounts addr
    | none => s.accounts.head?
  match account with
  | none => ⟨s, .error (some "No account available for this operation"), 0⟩
  | some acct =>
    let s' : StarkWolfGame := { s with connected := some acct.address }
    let r := retryTransaction (submitAndConfirm L) 5 2000
    ⟨s', r.result, r.attempts⟩

/-- witchAction (lines 397-431): same shape as vote with the witch account and
the save/poison flags compiled into calldata. -/
def witchAction (s : StarkWolfGame) (L : Ledger) (gameId : Nat)
    (target : String) (save poison : Bool) (witchAddress : String) : OpResult :=
  match mapGet s.accounts witchAddress with
  | none => ⟨s, .error (some "Witch account not found"), 0⟩
  | some acct =>
    let s' : StarkWolfGame := { s with connected := some acct.address }
    let r := retryTransaction (submitAndConfirm L) 5 2000
    ⟨s', r.result, r.attempts⟩

/-- hunterAction (lines 440-472): same shape as vote with the hunter account. -/
def hunterAction (s : StarkWolfGame) (L : Ledger) (gameId : Nat)
    (target : String) (hunterAddress : String) : OpResult :=
  match mapGet s.accounts hunterAddress with
  | none => ⟨s, .error (some "Hunter account not found"), 0⟩
  | some acct =>
    let s' : StarkWolfGame := { s with connected := some acct.address }
    let r := retryTransaction (submitAndConfirm L) 5 2000
    ⟨s', r.result, r.attempts⟩

/-- A concrete receipt used by the sample ledgers below. -/
def tx1 : Tx := ⟨"0x1"⟩

/-- A ledger on which every execute and every wait succeeds and the state query
fails (no existing game). -/
def ledgerOk : Ledger :=
  ⟨fun _ => .ok tx1, fun _ => .ok (), .error "Contract error: game not found"⟩

/-- A ledger on which the state query succeeds (a game already exists) and
every execute and wait succeeds. -/
def ledgerGameExists : Ledger :=
  ⟨fun _ => .ok tx1, fun _ => .ok (), .ok ⟨7⟩⟩

/-- A ledger whose first execute fails with a transient error and whose later
attempts succeed. -/
def ledgerFailFirst : Ledger :=
  ⟨fun i => if i = 1 then .error "request timeout" else .ok tx1,
   fun _ => .ok (), .error "Contract error: game not found"⟩

/-- A ledger on which every execute fails with a 'Target protected' rejection. -/
def ledgerProtected : Ledger :=
  ⟨fun _ => .error "Contract error: Target protected by guard",
   fun _ => .ok (), .error "Contract error: game not found"⟩

/-- A sample orchestrator state holding one registered account. -/
def s1 : StarkWolfGame := ⟨[⟨"0xa1", "k1"⟩], none⟩

/-- The orchestrator state with an empty accounts Map. -/
def s0 : StarkWolfGame := ⟨[], none⟩

/-! ## Helper lemmas about the retry loop and the accounts Map -/

/-- When every attempt fails, the loop makes exactly fuel attempts starting at
the given attempt number, sleeps between consecutive attempts, and ends up
throwing the error of the last attempt (the initial lastError when the fuel is
already exhausted). -/
theorem retryGo_allFail {α : Type u} (op : Nat → Except String α) (errf : Nat → String)
    (d : Nat) (hop : ∀ i, op i = Except.error (errf i)) :
    ∀ (fuel attempt : Nat) (le : Option String),
      retryGo op d fuel attempt le =
        ⟨Except.error (if fuel = 0 then le else some (errf (attempt + fuel - 1))),
          fuel, List.replicate (fuel - 1) d⟩ := by
  intro fuel
  induction fuel with
  | zero =>
    intro attempt le
    simp [retryGo]
  | succ n ih =>
    intro attempt le
    simp only [retryGo, hop attempt]
    rw [ih (attempt + 1) (some (errf attempt))]
    rcases Nat.eq_zero_or_pos n with hn | hn
    · subst hn
      simp
    · have hne : ¬n = 0 := by omega
      have h1 : attempt + 1 + n - 1 = attempt + (n + 1) - 1 := by omega
      have h3 : List.replicate n d = d :: List.replicate (n - 1) d := by
        conv_lhs => rw [show n = (n - 1) + 1 from by omega]
        rw [List.replicate_succ]
      simp [hn, hne, h1, h3]

/-- A single-attempt run whose operation succeeds returns the value after one
invocation and no sleep. -/
theorem retry_one_ok {α : Type u} (op : Nat → Except String α) (d : Nat) (v : α)
    (h : op 1 = Except.ok v) :
    retryTransaction op 1 d = ⟨Except.ok v, 1, []⟩ := by
  show retryGo op d (0 + 1) 1 none = _
  simp only [retryGo, h]

/-- A single-attempt run whose operation fails throws that error after one
invocation and no sleep. -/
theorem retry_one_error {α : Type u} (op : Nat → Except String α) (d : Nat) (e : String)
    (h : op 1 = Except.error e) :
    retryTransaction op 1 d = ⟨Except.error (some e), 1, []⟩ := by
  show retryGo op d (0 + 1) 1 none = _
  simp only [retryGo, h]
  simp [retryGo]

/-- With at least two allowed attempts, an operation that fails once and then
succeeds is invoked exactly twice, with one sleep in between. -/
theorem retry_fail_then_ok {α : Type u} (op : Nat → Except String α) (d : Nat)
    (e : String) (v : α) (m : Int) (hm : 2 ≤ m)
    (h1 : op 1 = Except.error e) (h2 : op 2 = Except.ok v) :
    retryTransaction op m d = ⟨Except.ok v, 2, [d]⟩ := by
  obtain ⟨n, hn⟩ : ∃ n : Nat, m.toNat = n + 2 := ⟨m.toNat - 2, by omega⟩
  simp only [retryTransaction, hn]
  show retryGo op d ((n + 1) + 1) 1 none = _
  have h2' : op (1 + 1) = Except.ok v := h2
  simp only [retryGo, h1, h2']
  simp

/-- The game-existence check of startGame always falls through: whether the
state query succeeds (its throw is swallowed by its own catch) or fails, the
check returns unit and the submission code runs. -/
theorem checkExistingGame_ok (q : Except String GameState) :
    checkExistingGame q = Except.ok () := by
  cases q <;> rfl

/-- JS Map.get after Map.set with the same key returns the stored entry. -/
theorem mapGet_mapSet (m : List Account) (a : Account) :
    mapGet (mapSet m a) a.address = some a := by
  induction m with
  | nil => simp [mapSet, mapGet]
  | cons b rest ih =>
    by_cases hb : b.address = a.address
    · simp [mapSet, hb, mapGet]
    · simp [mapSet, hb, mapGet, ih]

/-! ## Claims about the retry executor -/

/-- Claim C4 (confirmed): for every maxAttempts = N at least 1 and an operation
failing on every invocation, retryTransaction invokes the operation exactly N
times, sleeps the constant delay between consecutive attempts (N - 1 sleeps),
and throws the error of the last, N-th, attempt. -/
theorem C4_retry_exhausts_attempts {α : Type u} (N d : Nat) (errf : Nat → String)
    (hN : 1 ≤ N) :
    retryTransaction (α := α) (fun i => Except.error (errf i)) (N : Int) d =
      ⟨Except.error (some (errf N)), N, List.replicate (N - 1) d⟩ := by
  have ht : ((N : Nat) : Int).toNat = N := by omega
  have hne : ¬N = 0 := by omega
  have h1 : 1 + N - 1 = N := by omega
  simp only [retryTransaction, ht]
  rw [retryGo_allFail (fun i => Except.error (errf i)) errf d (fun i => rfl)]
  simp [hne, h1]

/-- Claim C4 witness: three allowed attempts against an always-failing
operation give exactly three invocations, two sleeps and the last error. -/
theorem C4_witness :
    1 ≤ 3 ∧
      retryTransaction (α := Tx) (fun _ => Except.error "boom") (3 : Int) 7 =
        ⟨Except.error (some "boom"), 3, List.replicate 2 7⟩ :=
  ⟨by decide, C4_retry_exhausts_attempts 3 7 (fun _ => "boom") (by decide)⟩

/-- Claim C2 counterexample: an operation that always fails with the message
'Target protected' - the error the specification classifies as Sentinel - is
invoked twice under maxAttempts = 2, not once: retryTransaction re-invokes the
operation because it performs no error classification at all. -/
theorem C2_counterexample :
    (retryTransaction (α := Tx) (fun _ => Except.error "Target protected") 2 0).attempts
      = 2 := by
  decide

/-- Claim C2 as amended (proved): the retry loop applies no classification to
the caught error: whatever the failing error is - including the messages the
specification classifies as Sentinel or Fatal - under maxAttempts = N at least
2 the operation is re-invoked, exactly N times in total, and the final outcome
carries that error; no short-circuit after the first attempt exists. -/
theorem C2_no_classification_every_error_retried {α : Type u} (e : String) (N d : Nat)
    (hN : 2 ≤ N) :
    retryTransaction (α := α) (fun _ => Except.error e) (N : Int) d =
      ⟨Except.error (some e), N, List.replicate (N - 1) d⟩ ∧
    1 < (retryTransaction (α := α) (fun _ => Except.error e) (N : Int) d).attempts := by
  have ht : ((N : Nat) : Int).toNat = N := by omega
  have hne : ¬N = 0 := by omega
  have heq : retryTransaction (α := α) (fun _ => Except.error e) (N : Int) d =
      ⟨Except.error (some e), N, List.replicate (N - 1) d⟩ := by
    simp only [retryTransaction, ht]
    rw [retryGo_allFail (fun _ => Except.error e) (fun _ => e) d (fun i => rfl)]
    simp [hne]
  refine ⟨heq, ?_⟩
  rw [heq]
  show 1 < N
  omega

/-- Claim C2 witness: with maxAttempts = 4 the always-Sentinel-failing
operation is invoked four times. -/
theorem C2_witness :
    2 ≤ 4 ∧
      (retryTransaction (α := Tx) (fun _ => Except.error "Target protected") (4 : Int) 9 =
          ⟨Except.error (some "Target protected"), 4, List.replicate 3 9⟩ ∧
        1 < (retryTransaction (α := Tx)
              (fun _ => Except.error "Target protected") (4 : Int) 9).attempts) :=
  ⟨by decide, C2_no_classification_every_error_retried "Target protected" 4 9 (by decide)⟩

/-- Claim C10 (confirmed): for maxAttempts at most 0 the loop body is never
entered, so the operation is never invoked, no sleep happens, and the still
uninitialized lastError - modelled as none, the undefined value - is thrown. -/
theorem C10_nonpositive_maxAttempts {α : Type u} (m : Int) (hm : m ≤ 0)
    (op : Nat → Except String α) (d : Nat) :
    retryTransaction op m d = ⟨Except.error none, 0, []⟩ := by
  have h0 : m.toNat = 0 := Int.toNat_of_nonpos hm
  simp [retryTransaction, h0, retryGo]

/-- Claim C10 witness: maxAttempts = -1 invokes the operation zero times and
throws the undefined lastError. -/
theorem C10_witness :
    (-1 : Int) ≤ 0 ∧
      retryTransaction (α := Tx) (fun _ => Except.error "x") (-1) 5 =
        ⟨Except.error none, 0, []⟩ :=
  ⟨by decide, C10_nonpositive_maxAttempts (-1) (by decide) (fun _ => Except.error "x") 5⟩

/-! ## Claims about the orchestrator operations -/

/-- Claim C1 (code bug, evaluated at the failing input): on a ledger where the
state query for the gameId succeeds - the game already exists - startGame
still submits.  The error 'Game already exists with this ID' of line 93 is
thrown inside the try block of lines 90-98, whose own catch clause swallows
it, so the check falls through, the submission of lines 105-119 runs, one
execute attempt is made and the call returns the receipt of the newly
submitted transaction instead of stopping. -/
theorem C1_startGame_submits_despite_existing_game :
    ledgerGameExists.queryState = Except.ok ⟨7⟩ ∧
    checkExistingGame ledgerGameExists.queryState = Except.ok () ∧
    (startGame s1 ledgerGameExists 42 ["0xa1"] "0xa1").attempts = 1 ∧
    (startGame s1 ledgerGameExists 42 ["0xa1"] "0xa1").result = Except.ok tx1 :=
  ⟨rfl, rfl, rfl, rfl⟩

/-- Claim C3 (confirmed): when the night-action submission fails with an error
whose message contains 'Target protected', werewolfAction returns the handled
sentinel receipt - no failure and no thrown error - after exactly one
submission attempt (it calls retryTransaction with maxAttempts = 1), and the
target-protected test is applied both by the closure inside the retry loop and
a second time by the catch around the whole retry call. -/
theorem C3_nightAction_target_protected (s : StarkWolfGame) (L : Ledger) (gameId : Nat)
    (target killer : String) (acct : Account) (e : String)
    (hk : mapGet s.accounts killer = some acct)
    (h1 : submitAndConfirm L 1 = Except.error e)
    (he : strIncludes e "Target protected" = true) :
    (werewolfAction s L gameId target killer).result = Except.ok protectedSentinel ∧
    (werewolfAction s L gameId target killer).attempts = 1 ∧
    werewolfInner L 1 = Except.ok protectedSentinel ∧
    werewolfOuterCatch (Except.error (some e)) = Except.ok protectedSentinel := by
  have hi : werewolfInner L 1 = Except.ok protectedSentinel := by
    simp [werewolfInner, h1, he]
  have hr : retryTransaction (werewolfInner L) 1 2000 = ⟨Except.ok protectedSentinel, 1, []⟩ :=
    retry_one_ok _ _ _ hi
  refine ⟨?_, ?_, hi, ?_⟩
  · simp [werewolfAction, hk, hr, werewolfOuterCatch]
  · simp [werewolfAction, hk, hr]
  · simp [werewolfOuterCatch, he]

/-- Claim C3 witness: against the ledger that rejects with 'Target protected',
the registered killer's night action returns the sentinel receipt in one
attempt. -/
theorem C3_witness :
    mapGet s1.accounts "0xa1" = some ⟨"0xa1", "k1"⟩ ∧
    submitAndConfirm ledgerProtected 1 =
      Except.error "Contract error: Target protected by guard" ∧
    strIncludes "Contract error: Target protected by guard" "Target protected" = true ∧
    (werewolfAction s1 ledgerProtected 7 "0xt" "0xa1").result = Except.ok protectedSentinel ∧
    (werewolfAction s1 ledgerProtected 7 "0xt" "0xa1").attempts = 1 :=
  ⟨rfl, rfl, by decide,
    (C3_nightAction_target_protected s1 ledgerProtected 7 "0xt" "0xa1" ⟨"0xa1", "k1"⟩
      "Contract error: Target protected by guard" rfl rfl (by decide)).1,
    (C3_nightAction_target_protected s1 ledgerProtected 7 "0xt" "0xa1" ⟨"0xa1", "k1"⟩
      "Contract error: Target protected by guard" rfl rfl (by decide)).2.1⟩

/-- Claim C5 counterexample: from the same concrete state, a Confirmed
passNight and a Confirmed passDay leave the orchestrator in identical states -
the only change either makes is recording the connected account - so the
orchestrator keeps no Phase: the state after PassNight, which per the claim
should now read Day, is the very state after PassDay, which should read
Night. -/
theorem C5_counterexample :
    passNight s1 ledgerOk 1 none = passDay s1 ledgerOk 1 none ∧
    (passNight s1 ledgerOk 1 none).result = Except.ok tx1 ∧
    (passNight s1 ledgerOk 1 none).state = { s1 with connected := some "0xa1" } :=
  ⟨rfl, rfl, rfl⟩

/-- Claim C5 as amended (proved): the orchestrator keeps no per-gameId Phase
value at all.  Its state holds only the accounts Map and the connected
account; passNight and passDay perform the identical state update, and no
operation - phase transition, vote, startGame, endVoting or night action -
ever changes the accounts Map. -/
theorem C5_no_phase_is_tracked (s : StarkWolfGame) (L : Ledger) (g : Nat)
    (c : Option String) (t v st : String) (ps : List String) :
    passNight s L g c = passDay s L g c ∧
    (passNight s L g c).state.accounts = s.accounts ∧
    (vote s L g t v).state.accounts = s.accounts ∧
    (startGame s L g ps st).state.accounts = s.accounts ∧
    (endVoting s L g).state.accounts = s.accounts ∧
    (werewolfAction s L g t v).state.accounts = s.accounts := by
  refine ⟨rfl, ?_, ?_, ?_, ?_, ?_⟩
  · unfold passNight
    rcases c with _ | addr
    · rcases h : s.accounts.head? with _ | a <;> simp [h]
    · rcases h : mapGet s.accounts addr with _ | a <;> simp [h]
  · unfold vote
    rcases h : mapGet s.accounts v with _ | a <;> simp [h]
  · unfold startGame
    rcases h : mapGet s.accounts st with _ | a <;> simp [h, checkExistingGame_ok]
  · unfold endVoting
    rcases h : s.accounts with _ | ⟨a, rest⟩
    · simp [h]
    · simp [h]
      cases hsc : submitAndConfirm L 1 <;> simp [hsc, h]
  · unfold werewolfAction
    rcases h : mapGet s.accounts v with _ | a <;> simp [h]

/-- Claim C6 counterexample: on the ledger whose first execute fails with a
transient error and whose second succeeds, vote is retried and confirms after
two attempts, but endVoting - also an orchestrator operation with a ledger
submission - throws after exactly one attempt: endVoting does not drive its
submission through the retry executor. -/
theorem C6_counterexample :
    (vote s1 ledgerFailFirst 1 "0xt" "0xa1").result = Except.ok tx1 ∧
    (vote s1 ledgerFailFirst 1 "0xt" "0xa1").attempts = 2 ∧
    (endVoting s1 ledgerFailFirst 1).result = Except.error (some "request timeout") ∧
    (endVoting s1 ledgerFailFirst 1).attempts = 1 :=
  ⟨rfl, rfl, rfl, rfl⟩

/-- Claim C6 as amended (proved): every orchestrator operation except endVoting
drives its ledger submission through retryTransaction wrapping the
execute-and-await-confirmation closure, so a transient failure of the first
attempt is absorbed and the call confirms on the second; endVoting instead
performs one direct execute-and-await, and the same first-attempt failure is
thrown after exactly one attempt. -/
theorem C6_all_but_endVoting_use_retry (s : StarkWolfGame) (L : Ledger) (g : Nat)
    (t l1 l2 : String) (sv po : Bool) (ps : List String) (addr : String)
    (acct a0 : Account) (rest : List Account) (e : String) (tx : Tx)
    (hk : mapGet s.accounts addr = some acct)
    (hhd : s.accounts = a0 :: rest)
    (h1 : submitAndConfirm L 1 = Except.error e)
    (h2 : submitAndConfirm L 2 = Except.ok tx) :
    (startGame s L g ps addr).result = Except.ok tx ∧
    (startGame s L g ps addr).attempts = 2 ∧
    (vote s L g t addr).result = Except.ok tx ∧
    (vote s L g t addr).attempts = 2 ∧
    (cupidAction s L g l1 l2 addr).result = Except.ok tx ∧
    (cupidAction s L g l1 l2 addr).attempts = 2 ∧
    (witchAction s L g t sv po addr).result = Except.ok tx ∧
    (witchAction s L g t sv po addr).attempts = 2 ∧
    (hunterAction s L g t addr).result = Except.ok tx ∧
    (hunterAction s L g t addr).attempts = 2 ∧
    (passNight s L g (some addr)).result = Except.ok tx ∧
    (passNight s L g (some addr)).attempts = 2 ∧
    (passDay s L g (some addr)).result = Except.ok tx ∧
    (passDay s L g (some addr)).attempts = 2 ∧
    (endVoting s L g).result = Except.error (some e) ∧
    (endVoting s L g).attempts = 1 := by
  have hr : retryTransaction (submitAndConfirm L) 5 2000 = ⟨Except.ok tx, 2, [2000]⟩ :=
    retry_fail_then_ok (submitAndConfirm L) 2000 e tx 5 (by decide) h1 h2
  have hk' : mapGet (a0 :: rest) addr = some acct := by
    rw [← hhd]
    exact hk
  refine ⟨?_, ?_, ?_, ?_, ?_, ?_, ?_, ?_, ?_, ?_, ?_, ?_, ?_, ?_, ?_, ?_⟩ <;>
    simp [startGame, vote, cupidAction, witchAction, hunterAction, passNight, passDay,
      endVoting, hk, hk', hhd, h1, hr, checkExistingGame_ok]

/-- Claim C6 witness: the amended statement instantiated on the concrete
one-account state and the fail-once ledger. -/
theorem C6_witness :
    (startGame s1 ledgerFailFirst 1 [] "0xa1").result = Except.ok tx1 ∧
    (startGame s1 ledgerFailFirst 1 [] "0xa1").attempts = 2 ∧
    (vote s1 ledgerFailFirst 1 "0xt" "0xa1").result = Except.ok tx1 ∧
    (vote s1 ledgerFailFirst 1 "0xt" "0xa1").attempts = 2 ∧
    (cupidAction s1 ledgerFailFirst 1 "0xl1" "0xl2" "0xa1").result = Except.ok tx1 ∧
    (cupidAction s1 ledgerFailFirst 1 "0xl1" "0xl2" "0xa1").attempts = 2 ∧
    (witchAction s1 ledgerFailFirst 1 "0xt" true false "0xa1").result = Except.ok tx1 ∧
    (witchAction s1 ledgerFailFirst 1 "0xt" true false "0xa1").attempts = 2 ∧
    (hunterAction s1 ledgerFailFirst 1 "0xt" "0xa1").result = Except.ok tx1 ∧
    (hunterAction s1 ledgerFailFirst 1 "0xt" "0xa1").attempts = 2 ∧
    (passNight s1 ledgerFailFirst 1 (some "0xa1")).result = Except.ok tx1 ∧
    (passNight s1 ledgerFailFirst 1 (some "0xa1")).attempts = 2 ∧
    (passDay s1 ledgerFailFirst 1 (some "0xa1")).result = Except.ok tx1 ∧
    (passDay s1 ledgerFailFirst 1 (some "0xa1")).attempts = 2 ∧
    (endVoting s1 ledgerFailFirst 1).result = Except.error (some "request timeout") ∧
    (endVoting s1 ledgerFailFirst 1).attempts = 1 :=
  C6_all_but_endVoting_use_retry s1 ledgerFailFirst 1 "0xt" "0xl1" "0xl2" true false []
    "0xa1" ⟨"0xa1", "k1"⟩ ⟨"0xa1", "k1"⟩ [] "request timeout" tx1 rfl rfl rfl rfl

/-- Claim C7 (confirmed): after addAccount(addr, key) the Map resolves addr to
an identity whose address equals addr; and every operation called with an
unregistered actor address throws its account-not-found error - for passNight
and passDay the message reads 'No account available for this operation' - with
zero submission attempts and no retry. -/
theorem C7_account_resolution (s : StarkWolfGame) (L : Ledger) (g : Nat)
    (ps : List String) (t l1 l2 : String) (sv po : Bool) (addr : String)
    (h : mapGet s.accounts addr = none) :
    (∀ (s' : StarkWolfGame) (a k : String),
        mapGet (addAccount s' a k).accounts a = some ⟨a, k⟩) ∧
    startGame s L g ps addr = ⟨s, Except.error (some "Starter account not found"), 0⟩ ∧
    vote s L g t addr = ⟨s, Except.error (some "Voter account not found"), 0⟩ ∧
    werewolfAction s L g t addr = ⟨s, Except.error (some "Killer account not found"), 0⟩ ∧
    cupidAction s L g l1 l2 addr = ⟨s, Except.error (some "Cupid account not found"), 0⟩ ∧
    witchAction s L g t sv po addr = ⟨s, Except.error (some "Witch account not found"), 0⟩ ∧
    hunterAction s L g t addr = ⟨s, Except.error (some "Hunter account not found"), 0⟩ ∧
    passNight s L g (some addr) =
      ⟨s, Except.error (some "No account available for this operation"), 0⟩ ∧
    passDay s L g (some addr) =
      ⟨s, Except.error (some "No account available for this operation"), 0⟩ := by
  refine ⟨?_, ?_, ?_, ?_, ?_, ?_, ?_, ?_, ?_⟩
  · intro s' a k
    simpa [addAccount] using mapGet_mapSet s'.accounts ⟨a, k⟩
  all_goals
    simp [startGame, vote, werewolfAction, cupidAction, witchAction, hunterAction,
      passNight, passDay, h]

/-- Claim C7 witness: the one-account state resolves a fresh registration and
rejects an unregistered voter with zero attempts. -/
theorem C7_witness :
    mapGet s1.accounts "0xzz" = none ∧
    mapGet (addAccount s1 "0xb2" "k2").accounts "0xb2" = some ⟨"0xb2", "k2"⟩ ∧
    vote s1 ledgerOk 1 "0xt" "0xzz" =
      ⟨s1, Except.error (some "Voter account not found"), 0⟩ :=
  ⟨by decide,
    (C7_account_resolution s1 ledgerOk 1 [] "0xt" "0xl1" "0xl2" true false "0xzz"
        (by decide)).1 s1 "0xb2" "k2",
    (C7_account_resolution s1 ledgerOk 1 [] "0xt" "0xl1" "0xl2" true false "0xzz"
        (by decide)).2.2.1⟩

/-- Claim C8 (confirmed): endVoting takes the first value of the accounts Map -
the first-registered account, deterministically - connecting the contract to
it, and throws 'No accounts available' with zero submission attempts when the
Map is empty. -/
theorem C8_endVoting_first_account (s : StarkWolfGame) (L : Ledger) (g : Nat) :
    (s.accounts = [] →
      endVoting s L g = ⟨s, Except.error (some "No accounts available"), 0⟩) ∧
    (∀ (a : Account) (rest : List Account), s.accounts = a :: rest →
      (endVoting s L g).state.connected = some a.address ∧
      (endVoting s L g).attempts = 1) := by
  constructor
  · intro h
    simp [endVoting, h]
  · intro a rest h
    constructor <;>
      · simp [endVoting, h]
        cases hsc : submitAndConfirm L 1 <;> simp [hsc]

/-- Claim C8 witness: the empty registry throws, and the one-account registry
connects the first-registered account. -/
theorem C8_witness :
    endVoting s0 ledgerOk 1 = ⟨s0, Except.error (some "No accounts available"), 0⟩ ∧
    (endVoting s1 ledgerOk 1).state.connected = some "0xa1" :=
  ⟨(C8_endVoting_first_account s0 ledgerOk 1).1 rfl,
    ((C8_endVoting_first_account s1 ledgerOk 1).2 ⟨"0xa1", "k1"⟩ [] rfl).1⟩

/-- Claim C9 (confirmed): the sentinel outcome of a handled 'Target protected'
rejection has the same shape as a confirmed outcome: it is an ordinary receipt
value whose transaction_hash field is the literal string
'protected_target_handled', while a successful submission returns the ledger's
own receipt - so only comparing that string against real transaction hashes
tells the two apart. -/
theorem C9_sentinel_shape (s : StarkWolfGame) (L L' : Ledger) (g : Nat)
    (t k : String) (acct : Account) (e : String) (tx : Tx)
    (hk : mapGet s.accounts k = some acct)
    (h1 : submitAndConfirm L 1 = Except.error e)
    (he : strIncludes e "Target protected" = true)
    (h1' : submitAndConfirm L' 1 = Except.ok tx) :
    (werewolfAction s L g t k).result =
      Except.ok { transaction_hash := "protected_target_handled" } ∧
    (werewolfAction s L' g t k).result = Except.ok tx := by
  constructor
  · have hi : werewolfInner L 1 = Except.ok protectedSentinel := by
      simp [werewolfInner, h1, he]
    have hr := retry_one_ok (werewolfInner L) 2000 _ hi
    simp [werewolfAction, hk, hr, werewolfOuterCatch, protectedSentinel]
  · have hi : werewolfInner L' 1 = Except.ok tx := by
      simp [werewolfInner, h1']
    have hr := retry_one_ok (werewolfInner L') 2000 _ hi
    simp [werewolfAction, hk, hr, werewolfOuterCatch]

/-- Claim C9 witness: on the protected-rejection ledger the returned receipt
carries the literal hash, and on the all-ok ledger the real receipt comes
back. -/
theorem C9_witness :
    (werewolfAction s1 ledgerProtected 7 "0xt" "0xa1").result =
      Except.ok { transaction_hash := "protected_target_handled" } ∧
    (werewolfAction s1 ledgerOk 7 "0xt" "0xa1").result = Except.ok tx1 :=
  C9_sentinel_shape s1 ledgerProtected ledgerOk 7 "0xt" "0xa1" ⟨"0xa1", "k1"⟩
    "Contract error: Target protected by guard" tx1 rfl rfl (by decide) rfl

end TxBot
